import Mathlib

/-!
Verification of the collection-and-analysis pipeline of an AWS monitoring
agent.  The Python source is embedded shallowly:

* metric snapshots (Python dicts) become the `Item` structure, with the
  keys the analyzers read; `dict.get(key, default)` becomes lookup in an
  association list with an explicit default;
* the static rule analyzer (`pre_analyzer.py`) becomes pure functions
  `analyze_alb`, `analyze_rds`, ... returning `Option StaticFinding`;
* the temporal analyzer (`temporal_analyzer.py`) becomes
  `analyze_trend_with_baseline` over `ℚ`-valued samples with the standard
  deviation in `ℝ` (Python floats are modelled by exact arithmetic);
* the thread-pool orchestrator (`orchestrator.py`) becomes
  `gatherResults` over an explicit list of task outcomes
  (`Except ε σ` models a future that either produced a snapshot or
  raised), quantified over an arbitrary completion order;
* Python f-string formatting of numbers (`{v:.2f}` and friends) is kept
  symbolic: an `Explanation` (resp. `FVal`) constructor records which
  template was instantiated and with which numeric arguments, since no
  property below depends on the decimal rendering.
-/

namespace AwsAgent

/-- Values stored under the `"value"` key of a static finding.  The Python
code stores either the raw number or an f-string rendering of it; each
constructor records one of the renderings used in `pre_analyzer.py`. -/
inductive FVal where
  | num (q : ℚ)                  -- the bare number, e.g. `value`
  | ms (q : ℚ)                   -- `f"{value:.2f}ms"`
  | percent (q : ℚ)              -- `f"{value:.1f}%"`
  | frac (running desired : ℚ)  -- `f"{running}/{desired}"`
  | str (s : String)             -- a plain string (cluster / stack status)
deriving DecidableEq, Repr

/-- The explanation f-strings of both analyzers, kept symbolic: one
constructor per template, carrying the interpolated values. -/
inductive Explanation where
  | alb5xx (value : ℚ)
  | albLatency (value : ℚ)
  | rdsPrimaryCpu (value : ℚ)
  | rdsReplicaCpu (value : ℚ)
  | cacheHitRate (value : ℚ)
  | cacheEvictions (value : ℚ)
  | ecsUnderprovisioned (desired running : ℚ)
  | opensearchState (status : String)
  | cloudformationFailed (status : String)
  | stepChange (metric : String) (mean current : ℚ) (timeDelta : String)
  | zscoreTrend (metric : String) (direction : String) (current : ℚ)
      (timeDelta : String) (zAbs : ℝ) (mean : ℚ)

/-- One ECS service entry of the `"services"` list of an ECS snapshot; the
numeric fields are optional because the code reads them with
`service.get(..., 0)`. -/
structure EcsService where
  name : String
  running_tasks : Option ℚ
  desired_tasks : Option ℚ
deriving DecidableEq, Repr

/-- A collected snapshot (one Python dict of `results`), restricted to the
keys the two analyzers read.  `nums` are the numeric metric entries,
`hists` the `*_history` entries; a key absent from the dict is absent from
the association list. -/
structure Item where
  nspace : Option String          -- the "namespace" key (`namespace` is a Lean keyword)
  resource : String               -- `item["resource"]`
  nums : List (String × ℚ)        -- numeric keys, read via `item.get(k, d)`
  hists : List (String × List ℚ)  -- history keys, read via `item.get(k, [])`
  services : List EcsService      -- `item.get("services", [])`
  status? : Option String         -- `item.get("status")`
  resource_id? : Option String    -- `item.get("resource_id")`
deriving DecidableEq, Repr

/-- Reads `item.get(key, default)` for a numeric metric. -/
def Item.getNum (it : Item) (key : String) (default : ℚ) : ℚ :=
  ((it.nums.lookup key).getD default)

/-- Reads `item.get(key, [])` for a history sequence. -/
def Item.getHist (it : Item) (key : String) : List ℚ :=
  ((it.hists.lookup key).getD [])

/-- A finding produced by the static rule analyzer: the fields are exactly
the keys of the dict literals in `pre_analyzer.py` (all six rule functions
build dicts with the same key set).  `finding_type` is always `"static"`
there, so it is not stored as data. -/
structure StaticFinding where
  service : String
  resource_id : String
  issue : String
  metric : String
  value : FVal
  threshold : String
  strength : String
  confidence : ℚ
  explanation : Explanation

/-- A finding produced by the temporal analyzer: exactly the keys of the
dict literals in `temporal_analyzer.py` (`finding_type` is always
`"temporal"`). -/
structure TemporalFinding where
  resource_id : String
  metric : String
  strength : String
  confidence : ℝ
  explanation : Explanation
  data_quality_notice : String

/-- Either kind of finding, as they coexist in `all_findings`. -/
inductive Finding where
  | static (f : StaticFinding)
  | temporal (f : TemporalFinding)

/-- The key list of the Python dict a static finding was built from. -/
def staticKeys : List String :=
  ["finding_type", "service", "resource_id", "issue", "metric", "value",
   "threshold", "strength", "confidence", "explanation"]

/-- The key list of the Python dict a temporal finding was built from. -/
def temporalKeys : List String :=
  ["finding_type", "resource_id", "metric", "strength", "confidence",
   "explanation", "data_quality_notice"]

/-- The keys of the dict a finding was emitted as. -/
def Finding.keys : Finding → List String
  | .static _ => staticKeys
  | .temporal _ => temporalKeys

/-- The `confidence` entry of a finding, as a real number. -/
def Finding.confidence : Finding → ℝ
  | .static f => (f.confidence : ℝ)
  | .temporal f => f.confidence

/-!  ## Static rule analyzer (`pre_analyzer.py`)  -/

/-- the Python call `s.split('/')` on a character list: maximal `'/'`-free runs,
with empty runs kept (`"".split('/') == [""]`, `"/".split('/') == ["", ""]`). -/
def splitOnSlash : List Char → List (List Char)
  | [] => [[]]
  | c :: rest =>
    let r := splitOnSlash rest
    if c = '/' then [] :: r
    else
      match r with
      | [] => [[c]]
      | h :: t => (c :: h) :: t

/-- Computes `item["resource"].split('/')[-2]`, falling back to the whole resource
string on `IndexError` (fewer than two `/`-separated parts). -/
def albShortName (resource : String) : String :=
  let parts := splitOnSlash resource.toList
  if h : 2 ≤ parts.length then ⟨parts.get ⟨parts.length - 2, by omega⟩⟩
  else resource

/-- Embeds `analyze_alb`: 5xx-count check first, latency check second, first
match wins. -/
def analyze_alb (item : Item) : Option StaticFinding :=
  let short_name := albShortName item.resource
  let v5xx := item.getNum "http_5xx_errors" 0
  if v5xx > 20 then
    some { service := "ALB", resource_id := short_name,
           issue := "High 5xx Error Count", metric := "HTTP 5xx Errors",
           value := .num v5xx, threshold := "> 20", strength := "High",
           confidence := 0.9, explanation := .alb5xx v5xx }
  else
    let vlat := item.getNum "avg_latency_ms" 0
    if vlat > 100 then
      some { service := "ALB", resource_id := short_name,
             issue := "High Target Response Time",
             metric := "Avg Latency (ms)", value := .ms vlat,
             threshold := "> 100ms", strength := "Moderate",
             confidence := 0.7, explanation := .albLatency vlat }
    else none

/-- Whether `a` is an initial segment of `b`. -/
def leadsList : List Char → List Char → Bool
  | [], _ => true
  | _ :: _, [] => false
  | a :: as, b :: bs => a = b && leadsList as bs

/-- Whether `sub` occurs as a contiguous sublist of `s`. -/
def subOccurs (sub : List Char) : List Char → Bool
  | [] => sub.isEmpty
  | c :: rest => leadsList sub (c :: rest) || subOccurs sub rest

/-- Tests the Python `sub in s` substring containment test. -/
def pyIn (sub s : String) : Bool :=
  subOccurs sub.toList s.toList

/-- Embeds `analyze_rds`: primary-CPU check, then read-replica-CPU check. -/
def analyze_rds (item : Item) : Option StaticFinding :=
  let cpu := item.getNum "cpu_utilization" 0
  if ¬ pyIn "read" item.resource ∧ cpu > 75 then
    some { service := "RDS", resource_id := item.resource,
           issue := "High CPU Utilization on Primary DB",
           metric := "CPU Utilization (%)", value := .percent cpu,
           threshold := "> 75%", strength := "High", confidence := 0.9,
           explanation := .rdsPrimaryCpu cpu }
  else if pyIn "read" item.resource ∧ cpu > 20 then
    some { service := "RDS", resource_id := item.resource,
           issue := "Elevated CPU on Read Replica",
           metric := "CPU Utilization (%)", value := .percent cpu,
           threshold := "> 20%", strength := "Moderate", confidence := 0.7,
           explanation := .rdsReplicaCpu cpu }
  else none

/-- Embeds `analyze_elasticache`: hit-rate check (default 100 when the metric is
absent) first, evictions check second. -/
def analyze_elasticache (item : Item) : Option StaticFinding :=
  let hit := item.getNum "cache_hit_rate" 100
  if pyIn "redis" item.resource ∧ hit < 80 then
    some { service := "ElastiCache", resource_id := item.resource,
           issue := "Low Cache Hit Rate", metric := "Cache Hit Rate (%)",
           value := .percent hit, threshold := "< 80%", strength := "High",
           confidence := 0.85, explanation := .cacheHitRate hit }
  else
    let ev := item.getNum "evictions" 0
    if ev > 1000 then
      some { service := "ElastiCache", resource_id := item.resource,
             issue := "High Eviction Count", metric := "Evictions (Count)",
             value := .num ev, threshold := "> 1000", strength := "High",
             confidence := 0.9, explanation := .cacheEvictions ev }
    else none

/-- Embeds `analyze_ecs`: the first service of the `"services"` list with
`running_tasks < desired_tasks` (each read with default 0) produces the
finding; later services are not examined. -/
def analyze_ecs (item : Item) : Option StaticFinding :=
  match item.services.find?
      (fun s => decide (s.running_tasks.getD 0 < s.desired_tasks.getD 0)) with
  | some s =>
      some { service := "ECS", resource_id := item.resource ++ "/" ++ s.name,
             issue := "Service Underprovisioned",
             metric := "Running Tasks vs. Desired",
             value := .frac (s.running_tasks.getD 0) (s.desired_tasks.getD 0),
             threshold := "Running < Desired", strength := "High",
             confidence := 1,
             explanation := .ecsUnderprovisioned (s.desired_tasks.getD 0)
               (s.running_tasks.getD 0) }
  | none => none

/-- Embeds `analyze_opensearch`: red-status check first, yellow second. -/
def analyze_opensearch (item : Item) : Option StaticFinding :=
  if item.getNum "cluster_status_red" 0 > 0 then
    some { service := "OpenSearch", resource_id := item.resource,
           issue := "Cluster in Red State", metric := "Cluster Status",
           value := .str "Red", threshold := "Not Green", strength := "High",
           confidence := 1, explanation := .opensearchState "Red" }
  else if item.getNum "cluster_status_yellow" 0 > 0 then
    some { service := "OpenSearch", resource_id := item.resource,
           issue := "Cluster in Yellow State", metric := "Cluster Status",
           value := .str "Yellow", threshold := "Not Green",
           strength := "Moderate", confidence := 0.8,
           explanation := .opensearchState "Yellow" }
  else none

/-- The stack states `analyze_cloudformation` treats as failed. -/
def failed_states : List String :=
  ["CREATE_FAILED", "ROLLBACK_COMPLETE", "UPDATE_ROLLBACK_COMPLETE"]

/-- Embeds `analyze_cloudformation`; an absent `"status"` key (Python `None`) is
in no list, hence no finding.  The threshold f-string renders the list;
the exact Python `str(list)` quoting is not reproduced. -/
def analyze_cloudformation (item : Item) : Option StaticFinding :=
  match item.status? with
  | some status =>
      if status ∈ failed_states then
        some { service := "CloudFormation", resource_id := item.resource,
               issue := "Stack in Failed State", metric := "Stack Status",
               value := .str status,
               threshold := "in " ++ toString failed_states,
               strength := "High", confidence := 1,
               explanation := .cloudformationFailed status }
      else none
  | none => none

/-- Embeds `ANALYZER_MAP`: namespace tag → static rule function; namespaces
without an entry get `none`. -/
def ANALYZER_MAP (ns : String) : Option (Item → Option StaticFinding) :=
  match ns with
  | "alb" => some analyze_alb
  | "rds" => some analyze_rds
  | "elasticache" => some analyze_elasticache
  | "ecs" => some analyze_ecs
  | "opensearch" => some analyze_opensearch
  | "cloudformation" => some analyze_cloudformation
  | _ => none

/-- The loop body of `run_pre_analysis` for one item: look the namespace
up in `ANALYZER_MAP` (an absent `"namespace"` key yields no entry) and
apply the rule function when one is registered. -/
def preAnalyzeItem (item : Item) : Option StaticFinding :=
  match item.nspace with
  | none => none
  | some ns =>
      match ANALYZER_MAP ns with
      | none => none
      | some analyzer_func => analyzer_func item

/-- Embeds `run_pre_analysis`: append the finding of each item, if any, in item
order. -/
def run_pre_analysis (collected_data : List Item) : List StaticFinding :=
  collected_data.filterMap preAnalyzeItem

/-!  ## Collection orchestrator (`orchestrator.py`, `run_collection`)

A collector category is a `discover` outcome plus a `collect` function
whose outcome is an `Except` (a raised exception is `.error`).  The
submission loop of `run_collection` calls `discover()` per category with
no `try`, so a discovery failure propagates; every discovered resource
contributes one task `coll.collect(res)`. -/

/-- One resource category as consumed by the orchestrator. -/
structure Collector (ε ρ σ : Type) where
  discover : Except ε (List ρ)
  collect : ρ → Except ε σ

/-- The submission loop: for each category in order, `discover()` (an
exception aborts the whole loop), then one task per discovered resource,
in order.  Returns the list of task outcomes. -/
def submitTasks {ε ρ σ : Type} : List (Collector ε ρ σ) → Except ε (List (Except ε σ))
  | [] => .ok []
  | c :: rest => do
      let rs ← c.discover
      let ts ← submitTasks rest
      return (rs.map c.collect ++ ts)

/-- The `as_completed` loop: the result of each task is appended on success;
a task that raised is reported and skipped (`try/except` around
`f.result()`). -/
def gatherResults {ε σ : Type} (tasks : List (Except ε σ)) : List σ :=
  tasks.filterMap fun t =>
    match t with
    | .ok s => some s
    | .error _ => none

/-- Embeds `run_collection`, up to the analysis/report phase: submit all tasks
(a discovery failure propagates as `.error`), then gather the successful
results. -/
def run_collection {ε ρ σ : Type} (collectors : List (Collector ε ρ σ)) :
    Except ε (List σ) :=
  (submitTasks collectors).map gatherResults

/-!  ## Temporal trend analyzer (`temporal_analyzer.py`)  -/

open Classical

/-- Computes `statistics.mean`. -/
def sampleMean (l : List ℚ) : ℚ := l.sum / (l.length : ℚ)

/-- The sample variance (the square of `statistics.stdev`): squared
deviations from the mean over `n - 1`. -/
def sampleVariance (l : List ℚ) : ℚ :=
  (l.map (fun x => (x - sampleMean l) ^ 2)).sum / ((l.length : ℚ) - 1)

/-- Computes `statistics.stdev`: the square root of the sample variance. -/
noncomputable def stdev (l : List ℚ) : ℝ := Real.sqrt (sampleVariance l)

/-- The data-quality notice computed at the head of
`analyze_trend_with_baseline`: non-empty exactly when `total_runs > 0`
and fewer data points than `total_runs` are available. -/
def qualityNotice (data_points_count : ℕ) (total_runs : ℤ) : String :=
  if 0 < total_runs ∧ (data_points_count : ℤ) < total_runs then
    " (Note: Analysis based on " ++ toString data_points_count ++ "/" ++
      toString total_runs ++ " runs; some data may be missing.)"
  else ""

/-- The 4-tuple `(strength, confidence, explanation, quality_notice)`
returned by `analyze_trend_with_baseline`. -/
structure TrendResult where
  strength : String
  confidence : ℝ
  explanation : Explanation
  quality_notice : String

/-- Embeds `analyze_trend_with_baseline`.  In the source `threshold_std_dev`
defaults to `2.0` and `higher_is_worse` to `True`; here both are ordinary
arguments, supplied by the per-category wrappers below. -/
noncomputable def analyze_trend_with_baseline (metric_name : String)
    (current_value : ℚ) (historical_values : List ℚ)
    (time_delta_str : String) (total_runs : ℤ)
    (threshold_std_dev : ℝ) (higher_is_worse : Bool) :
    Option TrendResult :=
  if historical_values.length < 3 then none
  else
    let quality_notice := qualityNotice historical_values.length total_runs
    let mean := sampleMean historical_values
    if stdev historical_values = 0 then
      if current_value ≠ mean then
        some ⟨"High", 0.95,
          .stepChange metric_name mean current_value time_delta_str,
          quality_notice⟩
      else none
    else
      let z : ℝ := ((current_value : ℝ) - (mean : ℝ)) / stdev historical_values
      if threshold_std_dev ≤ |z| ∧
          ((0 < z ∧ higher_is_worse = true) ∨ (z < 0 ∧ higher_is_worse = false)) then
        some ⟨if threshold_std_dev + 1 ≤ |z| then "High" else "Moderate",
          min (0.9 + (|z| - threshold_std_dev) * 0.1) 0.99,
          .zscoreTrend metric_name (if 0 < z then "increased" else "decreased")
            current_value time_delta_str |z| mean,
          quality_notice⟩
      else none

/-- The configuration fields the analysis pipeline reads. -/
structure Settings where
  temporal_lookback_days : ℤ
  llm_provider : Option String

/-- Embeds `_analyze_alb`: z-score trend of `http_5xx_errors` against its
embedded history, `higher_is_worse=True`, default threshold 2.0. -/
noncomputable def temporalAnalyzeAlb (current : Item) (time_delta_str : String)
    (settings : Settings) : List TemporalFinding :=
  match analyze_trend_with_baseline "ALB 5xx Errors"
      (current.getNum "http_5xx_errors" 0)
      (current.getHist "http_5xx_errors_history")
      time_delta_str settings.temporal_lookback_days 2 true with
  | some r =>
      [{ resource_id := current.resource, metric := "ALB 5xx Errors",
         strength := r.strength, confidence := r.confidence,
         explanation := r.explanation,
         data_quality_notice := r.quality_notice }]
  | none => []

/-- Embeds `_analyze_rds`: z-score trend of `cpu_utilization`. -/
noncomputable def temporalAnalyzeRds (current : Item) (time_delta_str : String)
    (settings : Settings) : List TemporalFinding :=
  match analyze_trend_with_baseline "RDS CPU Utilization"
      (current.getNum "cpu_utilization" 0)
      (current.getHist "cpu_utilization_history")
      time_delta_str settings.temporal_lookback_days 2 true with
  | some r =>
      [{ resource_id := current.resource, metric := "RDS CPU Utilization",
         strength := r.strength, confidence := r.confidence,
         explanation := r.explanation,
         data_quality_notice := r.quality_notice }]
  | none => []

/-- Embeds `_analyze_elasticache`: z-score trend of `cpu_utilization`. -/
noncomputable def temporalAnalyzeElasticache (current : Item)
    (time_delta_str : String) (settings : Settings) : List TemporalFinding :=
  match analyze_trend_with_baseline "ElastiCache CPU Utilization"
      (current.getNum "cpu_utilization" 0)
      (current.getHist "cpu_utilization_history")
      time_delta_str settings.temporal_lookback_days 2 true with
  | some r =>
      [{ resource_id := current.resource,
         metric := "ElastiCache CPU Utilization",
         strength := r.strength, confidence := r.confidence,
         explanation := r.explanation,
         data_quality_notice := r.quality_notice }]
  | none => []

/-!  ## Findings aggregation (`analyzer.py`, `Analyzer.run_analysis`)  -/

/-- The fixed message returned when `all_findings` is empty. -/
def noIssuesMessage : String :=
  "No significant issues or notable trends were detected in the environment."

/-- Line 38 of `analyzer.py`: `all_findings = static_findings +
temporal_findings`. -/
def aggregate (static_findings temporal_findings : List Finding) : List Finding :=
  static_findings ++ temporal_findings

/-- The control flow of `Analyzer.run_analysis` after the two finding
lists have been computed.  `llm_enabled` is the truthiness of
`settings.llm_provider`; `summarizer` stands for the prompt-and-chat
call (including its own error-to-string handling). -/
def run_analysis (llm_enabled : Bool) (summarizer : List Finding → String)
    (static_findings temporal_findings : List Finding) : String :=
  if llm_enabled = false then "(AI analysis disabled)"
  else
    let all_findings := aggregate static_findings temporal_findings
    if all_findings.isEmpty then noIssuesMessage
    else summarizer all_findings

/-!  ## Concrete inputs used to exercise the theorems  -/

/-- A category whose `discover()` raises. -/
def badCollector : Collector String String String where
  discover := Except.error "discovery boom"
  collect := fun r => Except.ok ("snap-" ++ r)

/-- A healthy category: one resource, collection succeeds. -/
def goodCollector : Collector String String String where
  discover := Except.ok ["r1"]
  collect := fun r => Except.ok ("snap-" ++ r)

/-- An ALB snapshot with a constant 5xx history and a jumped current
value (the zero-variance temporal branch fires). -/
def exAlbTemporalItem : Item where
  nspace := some "alb"
  resource := "app/lb/1"
  nums := [("http_5xx_errors", 75)]
  hists := [("http_5xx_errors_history", [50, 50, 50])]
  services := []
  status? := none
  resource_id? := none

/-- An ALB snapshot breaching both static thresholds at once. -/
def exAlbBothItem : Item where
  nspace := some "alb"
  resource := "app/my-lb/123"
  nums := [("http_5xx_errors", 50), ("avg_latency_ms", 500)]
  hists := []
  services := []
  status? := none
  resource_id? := none

/-- A snapshot of a namespace with no registered static rule. -/
def exWafItem : Item where
  nspace := some "waf"
  resource := "acl-1"
  nums := [("blocked_requests", 9999)]
  hists := []
  services := []
  status? := none
  resource_id? := none

/-- An ALB snapshot with no metrics at all. -/
def exNoMetricItem : Item where
  nspace := some "alb"
  resource := "app/my-lb/123"
  nums := []
  hists := []
  services := []
  status? := none
  resource_id? := none

/-- An ElastiCache snapshot lacking `cache_hit_rate`. -/
def exCacheItem : Item where
  nspace := some "elasticache"
  resource := "my-redis-01"
  nums := [("evictions", 5)]
  hists := []
  services := []
  status? := none
  resource_id? := none

/-- The settings used by the concrete temporal runs. -/
def exSettings : Settings where
  temporal_lookback_days := 3
  llm_provider := some "ollama"

/-- The z-score computed in the general branch of
`analyze_trend_with_baseline`. -/
noncomputable def zScore (current_value : ℚ) (historical_values : List ℚ) : ℝ :=
  ((current_value : ℝ) - (sampleMean historical_values : ℝ)) /
    stdev historical_values

/-- The static finding produced for `exAlbBothItem` (the 5xx rule is
checked first and wins). -/
def exStaticFinding : StaticFinding :=
  ⟨"ALB", "my-lb", "High 5xx Error Count", "HTTP 5xx Errors", .num 50,
    "> 20", "High", 0.9, .alb5xx 50⟩

/-- The temporal finding produced for `exAlbTemporalItem` (zero-variance
step change). -/
def exTemporalFinding : TemporalFinding :=
  ⟨"app/lb/1", "ALB 5xx Errors", "High", 0.95,
    .stepChange "ALB 5xx Errors" 50 75 "72.0 hours", ""⟩

/-!  # Helper lemmas  -/

theorem sampleVariance_nonneg (l : List ℚ) : 0 ≤ sampleVariance l := by
  rcases l with _ | ⟨x, xs⟩
  · simp [sampleVariance]
  · apply div_nonneg
    · apply List.sum_nonneg
      intro q hq
      simp only [List.mem_map] at hq
      obtain ⟨y, _, rfl⟩ := hq
      positivity
    · have h : ((x :: xs).length : ℚ) - 1 = (xs.length : ℚ) := by
        push_cast [List.length_cons]
        ring
      rw [h]
      positivity

theorem stdev_eq_zero_iff (l : List ℚ) : stdev l = 0 ↔ sampleVariance l = 0 := by
  have hnn : (0 : ℝ) ≤ (sampleVariance l : ℝ) := by
    exact_mod_cast sampleVariance_nonneg l
  rw [stdev, Real.sqrt_eq_zero hnn]
  exact_mod_cast Iff.rfl

theorem stdev_pos_of_var_ne (l : List ℚ) (hv : sampleVariance l ≠ 0) :
    0 < stdev l := by
  rcases lt_or_eq_of_le (Real.sqrt_nonneg ((sampleVariance l : ℝ))) with h | h
  · exact h
  · exact absurd ((stdev_eq_zero_iff l).mp h.symm) hv

theorem trend_of_short_history (mn : String) (cv : ℚ) (hist : List ℚ)
    (tds : String) (tr : ℤ) (th : ℝ) (hiw : Bool) (h : hist.length < 3) :
    analyze_trend_with_baseline mn cv hist tds tr th hiw = none := by
  simp only [analyze_trend_with_baseline]
  rw [if_pos h]

theorem trend_zero_var_step (mn : String) (cv : ℚ) (hist : List ℚ)
    (tds : String) (tr : ℤ) (th : ℝ) (hiw : Bool)
    (h3 : ¬ hist.length < 3) (hv : sampleVariance hist = 0)
    (hne : cv ≠ sampleMean hist) :
    analyze_trend_with_baseline mn cv hist tds tr th hiw =
      some ⟨"High", 0.95, .stepChange mn (sampleMean hist) cv tds,
        qualityNotice hist.length tr⟩ := by
  have hs : stdev hist = 0 := (stdev_eq_zero_iff hist).mpr hv
  simp only [analyze_trend_with_baseline]
  rw [if_neg h3, if_pos hs, if_pos hne]

theorem trend_zero_var_flat (mn : String) (cv : ℚ) (hist : List ℚ)
    (tds : String) (tr : ℤ) (th : ℝ) (hiw : Bool)
    (h3 : ¬ hist.length < 3) (hv : sampleVariance hist = 0)
    (heq : cv = sampleMean hist) :
    analyze_trend_with_baseline mn cv hist tds tr th hiw = none := by
  have hs : stdev hist = 0 := (stdev_eq_zero_iff hist).mpr hv
  simp only [analyze_trend_with_baseline]
  rw [if_neg h3, if_pos hs, if_neg (by simpa using heq)]

theorem trend_nonzero_var (mn : String) (cv : ℚ) (hist : List ℚ)
    (tds : String) (tr : ℤ) (th : ℝ) (hiw : Bool)
    (h3 : ¬ hist.length < 3) (hv : sampleVariance hist ≠ 0) :
    analyze_trend_with_baseline mn cv hist tds tr th hiw =
      (if th ≤ |zScore cv hist| ∧
          ((0 < zScore cv hist ∧ hiw = true) ∨
            (zScore cv hist < 0 ∧ hiw = false)) then
        some ⟨if th + 1 ≤ |zScore cv hist| then "High" else "Moderate",
          min (0.9 + (|zScore cv hist| - th) * 0.1) 0.99,
          .zscoreTrend mn (if 0 < zScore cv hist then "increased" else "decreased")
            cv tds |zScore cv hist| (sampleMean hist),
          qualityNotice hist.length tr⟩
      else none) := by
  have hs : stdev hist ≠ 0 := fun h => hv ((stdev_eq_zero_iff hist).mp h)
  simp only [analyze_trend_with_baseline, zScore]
  rw [if_neg h3, if_neg hs]

theorem trend_some_fields (mn : String) (cv : ℚ) (hist : List ℚ)
    (tds : String) (tr : ℤ) (th : ℝ) (hiw : Bool) (r : TrendResult)
    (h : analyze_trend_with_baseline mn cv hist tds tr th hiw = some r) :
    r.quality_notice = qualityNotice hist.length tr ∧ 3 ≤ hist.length ∧
      0 ≤ r.confidence ∧ r.confidence ≤ 1 := by
  by_cases h3 : hist.length < 3
  · rw [trend_of_short_history mn cv hist tds tr th hiw h3] at h
    cases h
  · by_cases hv : sampleVariance hist = 0
    · by_cases hne : cv = sampleMean hist
      · rw [trend_zero_var_flat mn cv hist tds tr th hiw h3 hv hne] at h
        cases h
      · rw [trend_zero_var_step mn cv hist tds tr th hiw h3 hv hne] at h
        injection h with h'
        subst h'
        refine ⟨rfl, by omega, by norm_num, by norm_num⟩
    · rw [trend_nonzero_var mn cv hist tds tr th hiw h3 hv] at h
      split_ifs at h with hcond <;> first
        | (injection h with h'
           subst h'
           have hz : (0 : ℝ) ≤ |zScore cv hist| - th := by linarith [hcond.1]
           have h1 : (0.9 : ℝ) ≤ 0.9 + (|zScore cv hist| - th) * 0.1 := by
             nlinarith
           have h2 : (0.9 : ℝ) ≤ (0.99 : ℝ) := by norm_num
           have hmin := le_min h1 h2
           have hmax := min_le_right (0.9 + (|zScore cv hist| - th) * 0.1)
             (0.99 : ℝ)
           exact ⟨rfl, by omega,
             le_trans (show (0 : ℝ) ≤ 0.9 by norm_num) hmin,
             le_trans hmax (by norm_num)⟩)
        | cases h

theorem analyze_alb_conf (it : Item) (f : StaticFinding)
    (h : analyze_alb it = some f) : 0 ≤ f.confidence ∧ f.confidence ≤ 1 := by
  simp only [analyze_alb] at h
  split_ifs at h <;> first
    | (injection h with h'; subst h'; exact ⟨by norm_num, by norm_num⟩)
    | cases h

theorem analyze_rds_conf (it : Item) (f : StaticFinding)
    (h : analyze_rds it = some f) : 0 ≤ f.confidence ∧ f.confidence ≤ 1 := by
  simp only [analyze_rds] at h
  split_ifs at h <;> first
    | (injection h with h'; subst h'; exact ⟨by norm_num, by norm_num⟩)
    | cases h

theorem analyze_elasticache_conf (it : Item) (f : StaticFinding)
    (h : analyze_elasticache it = some f) :
    0 ≤ f.confidence ∧ f.confidence ≤ 1 := by
  simp only [analyze_elasticache] at h
  split_ifs at h <;> first
    | (injection h with h'; subst h'; exact ⟨by norm_num, by norm_num⟩)
    | cases h

theorem analyze_ecs_conf (it : Item) (f : StaticFinding)
    (h : analyze_ecs it = some f) : 0 ≤ f.confidence ∧ f.confidence ≤ 1 := by
  simp only [analyze_ecs] at h
  split at h
  · injection h with h'
    subst h'
    constructor <;> norm_num
  · cases h

theorem analyze_opensearch_conf (it : Item) (f : StaticFinding)
    (h : analyze_opensearch it = some f) :
    0 ≤ f.confidence ∧ f.confidence ≤ 1 := by
  simp only [analyze_opensearch] at h
  split_ifs at h <;> first
    | (injection h with h'; subst h'; exact ⟨by norm_num, by norm_num⟩)
    | cases h

theorem analyze_cloudformation_conf (it : Item) (f : StaticFinding)
    (h : analyze_cloudformation it = some f) :
    0 ≤ f.confidence ∧ f.confidence ≤ 1 := by
  simp only [analyze_cloudformation] at h
  split at h
  · split_ifs at h <;> first
      | (injection h with h'; subst h'; exact ⟨by norm_num, by norm_num⟩)
      | cases h
  · cases h

theorem preAnalyzeItem_cases (it : Item) (f : StaticFinding)
    (h : preAnalyzeItem it = some f) :
    analyze_alb it = some f ∨ analyze_rds it = some f ∨
      analyze_elasticache it = some f ∨ analyze_ecs it = some f ∨
      analyze_opensearch it = some f ∨ analyze_cloudformation it = some f := by
  simp only [preAnalyzeItem] at h
  split at h
  · cases h
  · split at h
    · cases h
    · rename_i af haf
      simp only [ANALYZER_MAP] at haf
      split at haf <;> first
        | (injection haf with haf'; subst haf'; tauto)
        | cases haf

theorem preAnalyzeItem_conf (it : Item) (f : StaticFinding)
    (h : preAnalyzeItem it = some f) : 0 ≤ f.confidence ∧ f.confidence ≤ 1 := by
  rcases preAnalyzeItem_cases it f h with h' | h' | h' | h' | h' | h'
  · exact analyze_alb_conf it f h'
  · exact analyze_rds_conf it f h'
  · exact analyze_elasticache_conf it f h'
  · exact analyze_ecs_conf it f h'
  · exact analyze_opensearch_conf it f h'
  · exact analyze_cloudformation_conf it f h'

theorem gatherResults_perm {ε σ : Type} {t1 t2 : List (Except ε σ)}
    (h : t1.Perm t2) : (gatherResults t1).Perm (gatherResults t2) :=
  h.filterMap _

theorem mem_gatherResults {ε σ : Type} (ts : List (Except ε σ)) (s : σ) :
    s ∈ gatherResults ts ↔ Except.ok s ∈ ts := by
  simp only [gatherResults, List.mem_filterMap]
  constructor
  · rintro ⟨a, ha, hfa⟩
    cases a with
    | ok x =>
        simp only [Option.some.injEq] at hfa
        subst hfa
        exact ha
    | error e => cases hfa
  · intro h
    exact ⟨Except.ok s, h, rfl⟩

theorem gatherResults_all_fail {ε σ : Type} (ts : List (Except ε σ))
    (h : ∀ t ∈ ts, ∃ e, t = Except.error e) : gatherResults ts = [] := by
  induction ts with
  | nil => rfl
  | cons t ts ih =>
    obtain ⟨e, rfl⟩ := h t (by simp)
    simpa [gatherResults] using ih (fun t' ht' => h t' (by simp [ht']))

theorem submitTasks_ok {ε ρ σ : Type} (cs : List (Collector ε ρ σ))
    (h : ∀ c ∈ cs, ∃ rs, c.discover = Except.ok rs) :
    ∃ ts, submitTasks cs = Except.ok ts := by
  induction cs with
  | nil => exact ⟨[], rfl⟩
  | cons c cs ih =>
    obtain ⟨rs, hrs⟩ := h c (by simp)
    obtain ⟨ts, hts⟩ := ih (fun c' hc' => h c' (by simp [hc']))
    refine ⟨rs.map c.collect ++ ts, ?_⟩
    simp only [submitTasks, hrs, hts]
    rfl

theorem submitTasks_abort {ε ρ σ : Type} (pre post : List (Collector ε ρ σ))
    (c : Collector ε ρ σ) (e : ε)
    (hpre : ∀ c' ∈ pre, ∃ rs, c'.discover = Except.ok rs)
    (hc : c.discover = Except.error e) :
    submitTasks (pre ++ c :: post) = Except.error e := by
  induction pre with
  | nil =>
    simp only [List.nil_append, submitTasks, hc]
    rfl
  | cons p pre ih =>
    obtain ⟨rs, hrs⟩ := hpre p (by simp)
    have h' := ih (fun c' hc' => hpre c' (by simp [hc']))
    show p.discover.bind (fun rs => (submitTasks (pre ++ c :: post)).bind
      fun ts => pure (rs.map p.collect ++ ts)) = Except.error e
    rw [hrs]
    show (submitTasks (pre ++ c :: post)).bind
      (fun ts => pure (rs.map p.collect ++ ts)) = Except.error e
    rw [h']
    rfl

theorem temporalAnalyzeAlb_mem (it : Item) (tds : String) (s : Settings)
    (g : TemporalFinding) (hg : g ∈ temporalAnalyzeAlb it tds s) :
    ∃ r, analyze_trend_with_baseline "ALB 5xx Errors"
        (it.getNum "http_5xx_errors" 0) (it.getHist "http_5xx_errors_history")
        tds s.temporal_lookback_days 2 true = some r ∧
      g.confidence = r.confidence ∧ g.data_quality_notice = r.quality_notice := by
  simp only [temporalAnalyzeAlb] at hg
  split at hg
  · rename_i r hr
    rw [List.mem_singleton] at hg
    subst hg
    exact ⟨r, hr, rfl, rfl⟩
  · simp at hg

theorem temporalAnalyzeRds_mem (it : Item) (tds : String) (s : Settings)
    (g : TemporalFinding) (hg : g ∈ temporalAnalyzeRds it tds s) :
    ∃ r, analyze_trend_with_baseline "RDS CPU Utilization"
        (it.getNum "cpu_utilization" 0) (it.getHist "cpu_utilization_history")
        tds s.temporal_lookback_days 2 true = some r ∧
      g.confidence = r.confidence ∧ g.data_quality_notice = r.quality_notice := by
  simp only [temporalAnalyzeRds] at hg
  split at hg
  · rename_i r hr
    rw [List.mem_singleton] at hg
    subst hg
    exact ⟨r, hr, rfl, rfl⟩
  · simp at hg

theorem temporalAnalyzeElasticache_mem (it : Item) (tds : String) (s : Settings)
    (g : TemporalFinding) (hg : g ∈ temporalAnalyzeElasticache it tds s) :
    ∃ r, analyze_trend_with_baseline "ElastiCache CPU Utilization"
        (it.getNum "cpu_utilization" 0) (it.getHist "cpu_utilization_history")
        tds s.temporal_lookback_days 2 true = some r ∧
      g.confidence = r.confidence ∧ g.data_quality_notice = r.quality_notice := by
  simp only [temporalAnalyzeElasticache] at hg
  split at hg
  · rename_i r hr
    rw [List.mem_singleton] at hg
    subst hg
    exact ⟨r, hr, rfl, rfl⟩
  · simp at hg

theorem analyze_alb_hit5xx (it : Item)
    (h : it.getNum "http_5xx_errors" 0 > 20) :
    analyze_alb it = some ⟨"ALB", albShortName it.resource,
      "High 5xx Error Count", "HTTP 5xx Errors",
      .num (it.getNum "http_5xx_errors" 0), "> 20", "High", 0.9,
      .alb5xx (it.getNum "http_5xx_errors" 0)⟩ := by
  simp only [analyze_alb]
  rw [if_pos h]

theorem analyze_alb_latency (it : Item)
    (h5 : ¬ it.getNum "http_5xx_errors" 0 > 20)
    (hl : it.getNum "avg_latency_ms" 0 > 100) :
    analyze_alb it = some ⟨"ALB", albShortName it.resource,
      "High Target Response Time", "Avg Latency (ms)",
      .ms (it.getNum "avg_latency_ms" 0), "> 100ms", "Moderate", 0.7,
      .albLatency (it.getNum "avg_latency_ms" 0)⟩ := by
  simp only [analyze_alb]
  rw [if_neg h5, if_pos hl]

theorem analyze_alb_clean (it : Item)
    (h5 : ¬ it.getNum "http_5xx_errors" 0 > 20)
    (hl : ¬ it.getNum "avg_latency_ms" 0 > 100) :
    analyze_alb it = none := by
  simp only [analyze_alb]
  rw [if_neg h5, if_neg hl]

theorem preAnalyzeItem_no_rule (it : Item) (ns : String)
    (hns : it.nspace = some ns) (hmap : ANALYZER_MAP ns = none) :
    preAnalyzeItem it = none := by
  simp [preAnalyzeItem, hns, hmap]

theorem preAnalyzeItem_no_namespace (it : Item) (hns : it.nspace = none) :
    preAnalyzeItem it = none := by
  simp [preAnalyzeItem, hns]

theorem run_pre_analysis_singleton (it : Item) :
    run_pre_analysis [it] = (preAnalyzeItem it).toList := by
  simp only [run_pre_analysis, List.filterMap]
  cases preAnalyzeItem it <;> rfl

/-!  # Claim theorems  -/

/-- C6: a metric whose historical-value sequence has fewer than 3 samples
(including an empty history) produces no temporal finding, regardless of
the current value. -/
theorem temporal_insufficient_history (metric_name : String)
    (current_value : ℚ) (historical_values : List ℚ) (time_delta_str : String)
    (total_runs : ℤ) (threshold_std_dev : ℝ) (higher_is_worse : Bool)
    (h : historical_values.length < 3) :
    analyze_trend_with_baseline metric_name current_value historical_values
      time_delta_str total_runs threshold_std_dev higher_is_worse = none :=
  trend_of_short_history metric_name current_value historical_values
    time_delta_str total_runs threshold_std_dev higher_is_worse h

/-- Witness for C6: a length-2 history yields no finding even for an
extreme current value. -/
theorem temporal_insufficient_history_witness :
    analyze_trend_with_baseline "ALB 5xx Errors" 1000000 [10, 10]
      "72.0 hours" 14 2 true = none :=
  temporal_insufficient_history "ALB 5xx Errors" 1000000 [10, 10]
    "72.0 hours" 14 2 true (by norm_num)

/-- C5: with at least 3 samples and zero sample standard deviation, the
temporal analyzer emits exactly one High-strength, 0.95-confidence
step-change finding when the current value differs from the constant
historical value (in either direction, with no division by the zero
standard deviation), and no finding when it equals it. -/
theorem temporal_zero_variance (metric_name : String) (current_value : ℚ)
    (historical_values : List ℚ) (time_delta_str : String) (total_runs : ℤ)
    (threshold_std_dev : ℝ) (higher_is_worse : Bool)
    (h3 : 3 ≤ historical_values.length)
    (hv : sampleVariance historical_values = 0) :
    (current_value ≠ sampleMean historical_values →
      analyze_trend_with_baseline metric_name current_value historical_values
          time_delta_str total_runs threshold_std_dev higher_is_worse =
        some ⟨"High", 0.95,
          .stepChange metric_name (sampleMean historical_values)
            current_value time_delta_str,
          qualityNotice historical_values.length total_runs⟩)
    ∧ (current_value = sampleMean historical_values →
      analyze_trend_with_baseline metric_name current_value historical_values
          time_delta_str total_runs threshold_std_dev higher_is_worse =
        none) :=
  ⟨fun hne => trend_zero_var_step metric_name current_value historical_values
      time_delta_str total_runs threshold_std_dev higher_is_worse
      (by omega) hv hne,
   fun heq => trend_zero_var_flat metric_name current_value historical_values
      time_delta_str total_runs threshold_std_dev higher_is_worse
      (by omega) hv heq⟩

/-- Witness for C5: history `[50, 50, 50]` with current value 75 yields
exactly the High/0.95 step-change finding; current value 50 yields none. -/
theorem temporal_zero_variance_witness :
    analyze_trend_with_baseline "m" 75 [50, 50, 50] "72.0 hours" 3 2 true =
      some ⟨"High", 0.95, .stepChange "m" 50 75 "72.0 hours", ""⟩
    ∧ analyze_trend_with_baseline "m" 50 [50, 50, 50] "72.0 hours" 3 2 true =
      none := by
  have hvar : sampleVariance [50, 50, 50] = 0 := by
    norm_num [sampleVariance, sampleMean]
  have hmean : sampleMean ([50, 50, 50] : List ℚ) = 50 := by
    norm_num [sampleMean]
  constructor
  · have h := (temporal_zero_variance "m" 75 [50, 50, 50] "72.0 hours" 3 2
      true (by norm_num) hvar).1 (by rw [hmean]; norm_num)
    rw [h, hmean]
    norm_num [qualityNotice]
  · exact (temporal_zero_variance "m" 50 [50, 50, 50] "72.0 hours" 3 2
      true (by norm_num) hvar).2 (by rw [hmean])

/-- C4: with at least 3 samples and nonzero sample standard deviation, a
finding is emitted exactly when the z-score has the sign of the configured
bad direction and its magnitude reaches the threshold; strength is High
exactly when the magnitude reaches threshold + 1, else Moderate, and
confidence is `min (0.9 + (|z| - threshold) * 0.1) 0.99`. -/
theorem temporal_zscore_branch (metric_name : String) (current_value : ℚ)
    (historical_values : List ℚ) (time_delta_str : String) (total_runs : ℤ)
    (threshold_std_dev : ℝ) (higher_is_worse : Bool)
    (h3 : 3 ≤ historical_values.length)
    (hv : sampleVariance historical_values ≠ 0) :
    analyze_trend_with_baseline metric_name current_value historical_values
        time_delta_str total_runs threshold_std_dev higher_is_worse =
      (if threshold_std_dev ≤ |zScore current_value historical_values| ∧
          ((0 < zScore current_value historical_values ∧
              higher_is_worse = true) ∨
            (zScore current_value historical_values < 0 ∧
              higher_is_worse = false)) then
        some ⟨if threshold_std_dev + 1 ≤
              |zScore current_value historical_values| then "High"
            else "Moderate",
          min (0.9 + (|zScore current_value historical_values| -
            threshold_std_dev) * 0.1) 0.99,
          .zscoreTrend metric_name
            (if 0 < zScore current_value historical_values then "increased"
              else "decreased")
            current_value time_delta_str
            |zScore current_value historical_values|
            (sampleMean historical_values),
          qualityNotice historical_values.length total_runs⟩
      else none) :=
  trend_nonzero_var metric_name current_value historical_values
    time_delta_str total_runs threshold_std_dev higher_is_worse
    (by omega) hv

/-- Witness for C4: history `[10, 10, 11, 9, 10]` (mean 10, sample stdev
√(1/2)) with current value 15 gives z = 5/√(1/2) ≈ 7.07, hence a High
finding with confidence capped at 0.99. -/
theorem temporal_zscore_branch_witness :
    3 ≤ ([10, 10, 11, 9, 10] : List ℚ).length ∧
    sampleVariance [10, 10, 11, 9, 10] ≠ 0 ∧
    analyze_trend_with_baseline "m" 15 [10, 10, 11, 9, 10] "72.0 hours" 5
        2 true =
      some ⟨"High", 0.99,
        .zscoreTrend "m" "increased" 15 "72.0 hours"
          |zScore 15 [10, 10, 11, 9, 10]| 10, ""⟩ := by
  have hvar : sampleVariance [10, 10, 11, 9, 10] = 1 / 2 := by
    norm_num [sampleVariance, sampleMean]
  have hmean : sampleMean ([10, 10, 11, 9, 10] : List ℚ) = 10 := by
    norm_num [sampleMean]
  have hsd : stdev [10, 10, 11, 9, 10] = Real.sqrt (1 / 2) := by
    rw [stdev, hvar]
    norm_num
  have hsd_pos : (0 : ℝ) < Real.sqrt (1 / 2) :=
    Real.sqrt_pos.mpr (by norm_num)
  have hsq : Real.sqrt (1 / 2) * Real.sqrt (1 / 2) = 1 / 2 :=
    Real.mul_self_sqrt (by norm_num)
  have hz : zScore 15 [10, 10, 11, 9, 10] = 5 / Real.sqrt (1 / 2) := by
    rw [zScore, hmean, hsd]
    norm_num
  have hzpos : 0 < zScore 15 [10, 10, 11, 9, 10] := by
    rw [hz]
    positivity
  have habs : |zScore 15 [10, 10, 11, 9, 10]| = 5 / Real.sqrt (1 / 2) := by
    rw [hz, abs_of_pos (by positivity)]
  have hbig : (3 : ℝ) ≤ 5 / Real.sqrt (1 / 2) := by
    rw [le_div_iff hsd_pos]
    nlinarith [hsq, Real.sqrt_nonneg ((1 : ℝ) / 2),
      sq_nonneg (Real.sqrt (1 / 2) - 1)]
  refine ⟨by norm_num, by rw [hvar]; norm_num, ?_⟩
  rw [temporal_zscore_branch "m" 15 [10, 10, 11, 9, 10] "72.0 hours" 5 2
    true (by norm_num) (by rw [hvar]; norm_num)]
  rw [if_pos ⟨by rw [habs]; linarith, Or.inl ⟨hzpos, rfl⟩⟩]
  rw [if_pos (show (2 : ℝ) + 1 ≤ |zScore 15 [10, 10, 11, 9, 10]| by
    rw [habs]; linarith)]
  rw [if_pos hzpos, hmean]
  have hconf : min (0.9 + (|zScore 15 [10, 10, 11, 9, 10]| - 2) * 0.1)
      0.99 = 0.99 := by
    rw [habs, min_eq_right]
    linarith
  rw [hconf]
  norm_num [qualityNotice]

/-- C9: the data_quality_notice of a temporal result is non-empty exactly when
fewer historical samples were available than the configured expected
count, in which case it states the actual sample count versus the
expected count; otherwise it is the empty string. -/
theorem temporal_data_quality_notice (metric_name : String)
    (current_value : ℚ) (historical_values : List ℚ) (time_delta_str : String)
    (total_runs : ℤ) (threshold_std_dev : ℝ) (higher_is_worse : Bool)
    (r : TrendResult)
    (h : analyze_trend_with_baseline metric_name current_value
      historical_values time_delta_str total_runs threshold_std_dev
      higher_is_worse = some r) :
    (r.quality_notice ≠ "" ↔ (historical_values.length : ℤ) < total_runs)
    ∧ ((historical_values.length : ℤ) < total_runs →
        r.quality_notice =
          " (Note: Analysis based on " ++ toString historical_values.length
            ++ "/" ++ toString total_runs ++
            " runs; some data may be missing.)")
    ∧ (total_runs ≤ (historical_values.length : ℤ) →
        r.quality_notice = "") := by
  obtain ⟨hq, h3, -, -⟩ := trend_some_fields metric_name current_value
    historical_values time_delta_str total_runs threshold_std_dev
    higher_is_worse r h
  have h3' : (3 : ℤ) ≤ (historical_values.length : ℤ) := by exact_mod_cast h3
  rw [hq]
  refine ⟨?_, ?_, ?_⟩
  · constructor
    · intro hne
      by_contra hge
      rw [qualityNotice, if_neg (by omega)] at hne
      exact hne rfl
    · intro hlt
      rw [qualityNotice, if_pos ⟨by omega, hlt⟩]
      intro hcontra
      have hlen := congrArg String.length hcontra
      rw [String.length_append, String.length_append,
        String.length_append, String.length_append] at hlen
      have h0 : String.length "" = 0 := rfl
      have h26 : String.length " (Note: Analysis based on " = 26 := rfl
      omega
  · intro hlt
    rw [qualityNotice, if_pos ⟨by omega, hlt⟩]
  · intro hge
    rw [qualityNotice, if_neg (by omega)]

/-- Witness for C9: a 3-sample history against a 14-run expectation
yields the non-empty 3-versus-14 notice. -/
theorem temporal_data_quality_notice_witness :
    TrendResult.quality_notice ⟨"High", 0.95,
        .stepChange "m" (sampleMean [50, 50, 50]) 75 "72.0 hours",
        qualityNotice 3 14⟩ =
      " (Note: Analysis based on " ++ toString (3 : ℕ) ++ "/" ++
        toString (14 : ℤ) ++ " runs; some data may be missing.)" ∧
    TrendResult.quality_notice ⟨"High", 0.95,
        .stepChange "m" (sampleMean [50, 50, 50]) 75 "72.0 hours",
        qualityNotice 3 14⟩ ≠ "" := by
  have hvar : sampleVariance [50, 50, 50] = 0 := by
    norm_num [sampleVariance, sampleMean]
  have hne : (75 : ℚ) ≠ sampleMean [50, 50, 50] := by
    norm_num [sampleMean]
  have h := trend_zero_var_step "m" 75 [50, 50, 50] "72.0 hours" 14 2 true
    (by norm_num) hvar hne
  have H := temporal_data_quality_notice "m" 75 [50, 50, 50] "72.0 hours"
    14 2 true _ h
  exact ⟨H.2.1 (by decide), H.1.mpr (by decide)⟩

/-- C3: the static analyzer yields at most one finding per snapshot; the
per-category checks run in a fixed order and the finding of the first matching check — with the fixed strength and confidence of that rule — is returned,
later checks being skipped even when also breached (shown on the ALB
rules); namespaces without a registered rule function yield no finding
and no error. -/
theorem static_first_match (it : Item) (ns : String) :
    (run_pre_analysis [it]).length ≤ 1
    ∧ (it.nspace = some ns → ANALYZER_MAP ns = none →
        run_pre_analysis [it] = [])
    ∧ (it.nspace = none → run_pre_analysis [it] = [])
    ∧ (it.getNum "http_5xx_errors" 0 > 20 →
        analyze_alb it = some ⟨"ALB", albShortName it.resource,
          "High 5xx Error Count", "HTTP 5xx Errors",
          .num (it.getNum "http_5xx_errors" 0), "> 20", "High", 0.9,
          .alb5xx (it.getNum "http_5xx_errors" 0)⟩)
    ∧ (¬ it.getNum "http_5xx_errors" 0 > 20 →
        it.getNum "avg_latency_ms" 0 > 100 →
        analyze_alb it = some ⟨"ALB", albShortName it.resource,
          "High Target Response Time", "Avg Latency (ms)",
          .ms (it.getNum "avg_latency_ms" 0), "> 100ms", "Moderate", 0.7,
          .albLatency (it.getNum "avg_latency_ms" 0)⟩)
    ∧ (¬ it.getNum "http_5xx_errors" 0 > 20 →
        ¬ it.getNum "avg_latency_ms" 0 > 100 →
        analyze_alb it = none) := by
  refine ⟨?_, ?_, ?_, analyze_alb_hit5xx it, analyze_alb_latency it,
    analyze_alb_clean it⟩
  · rw [run_pre_analysis_singleton]
    cases preAnalyzeItem it <;> simp
  · intro hns hmap
    rw [run_pre_analysis_singleton, preAnalyzeItem_no_rule it ns hns hmap]
    rfl
  · intro hns
    rw [run_pre_analysis_singleton, preAnalyzeItem_no_namespace it hns]
    rfl

/-- Witness for C3: an ALB snapshot breaching both the 5xx and the
latency thresholds yields only the first (5xx) finding with its fixed
High/0.9 classification, and a snapshot of the unregistered `waf`
namespace yields nothing. -/
theorem static_first_match_witness :
    Item.getNum exAlbBothItem "http_5xx_errors" 0 > 20 ∧
    Item.getNum exAlbBothItem "avg_latency_ms" 0 > 100 ∧
    analyze_alb exAlbBothItem = some ⟨"ALB", "my-lb",
      "High 5xx Error Count", "HTTP 5xx Errors", .num 50, "> 20", "High",
      0.9, .alb5xx 50⟩ ∧
    run_pre_analysis [exWafItem] = [] := by
  have h5 : Item.getNum exAlbBothItem "http_5xx_errors" 0 = 50 := by
    simp [exAlbBothItem, Item.getNum, List.lookup]
  have hl : Item.getNum exAlbBothItem "avg_latency_ms" 0 = 500 := by
    simp [exAlbBothItem, Item.getNum, List.lookup]
  refine ⟨by rw [h5]; norm_num, by rw [hl]; norm_num, ?_, ?_⟩
  · have h := (static_first_match exAlbBothItem "alb").2.2.2.1
      (by rw [h5]; norm_num)
    rw [h, h5]
    have hshort : albShortName exAlbBothItem.resource = "my-lb" := by decide
    rw [hshort]
  · exact (static_first_match exWafItem "waf").2.1 rfl rfl

/-- C7: the static analyzer reads an absent metric as the neutral
default of its category — 0 for counts and latencies, 100 for the
healthy-when-high cache hit rate — so a snapshot lacking
`http_5xx_errors` yields no "High 5xx Error Count" finding and a snapshot
lacking `cache_hit_rate` yields no "Low Cache Hit Rate" finding, and no
error is raised. -/
theorem static_missing_metric_defaults (it : Item) :
    (it.nums.lookup "http_5xx_errors" = none →
      it.getNum "http_5xx_errors" 0 = 0 ∧
      ∀ f, analyze_alb it = some f → f.issue ≠ "High 5xx Error Count")
    ∧ (it.nums.lookup "cache_hit_rate" = none →
      it.getNum "cache_hit_rate" 100 = 100 ∧
      ∀ f, analyze_elasticache it = some f → f.issue ≠ "Low Cache Hit Rate") := by
  constructor
  · intro h0
    have hv : it.getNum "http_5xx_errors" 0 = 0 := by
      simp [Item.getNum, h0]
    refine ⟨hv, ?_⟩
    intro f hf
    simp only [analyze_alb, hv] at hf
    rw [if_neg (by norm_num)] at hf
    split_ifs at hf <;> first
      | (injection hf with hf'; subst hf'; simp)
      | cases hf
  · intro h0
    have hv : it.getNum "cache_hit_rate" 100 = 100 := by
      simp [Item.getNum, h0]
    refine ⟨hv, ?_⟩
    intro f hf
    simp only [analyze_elasticache, hv] at hf
    rw [if_neg (by norm_num)] at hf
    split_ifs at hf <;> first
      | (injection hf with hf'; subst hf'; simp)
      | cases hf

/-- Witness for C7: an ALB snapshot without `http_5xx_errors` reads the
metric as 0, an ElastiCache snapshot without `cache_hit_rate` reads it
as 100. -/
theorem static_missing_metric_defaults_witness :
    List.lookup "http_5xx_errors" exNoMetricItem.nums = none ∧
    Item.getNum exNoMetricItem "http_5xx_errors" 0 = 0 ∧
    List.lookup "cache_hit_rate" exCacheItem.nums = none ∧
    Item.getNum exCacheItem "cache_hit_rate" 100 = 100 := by
  have h1 := (static_missing_metric_defaults exNoMetricItem).1 (by decide)
  have h2 := (static_missing_metric_defaults exCacheItem).2 (by decide)
  exact ⟨by decide, h1.1, by decide, h2.1⟩

/-- C1: for any set of submitted collection tasks and any completion
order, the gathering loop of the orchestrator returns exactly the snapshots of
the succeeding tasks (a failed task only loses its own snapshot); if all
tasks fail the result is empty; with five tasks of which only the third
raises, the result is exactly the other four snapshots; and when every
discovery succeeds, `run_collection` returns a snapshot list without
raising. -/
theorem orchestrator_fault_isolation (ε ρ σ : Type) :
    (∀ tasks order : List (Except ε σ), order.Perm tasks →
      ((gatherResults order).Perm (gatherResults tasks) ∧
        ∀ s : σ, s ∈ gatherResults order ↔ Except.ok s ∈ tasks))
    ∧ (∀ tasks : List (Except ε σ),
        (∀ t ∈ tasks, ∃ e, t = Except.error e) → gatherResults tasks = [])
    ∧ (∀ (s₁ s₂ s₄ s₅ : σ) (e : ε) (order : List (Except ε σ)),
        order.Perm [Except.ok s₁, Except.ok s₂, Except.error e,
          Except.ok s₄, Except.ok s₅] →
        (gatherResults order).Perm [s₁, s₂, s₄, s₅])
    ∧ (∀ collectors : List (Collector ε ρ σ),
        (∀ c ∈ collectors, ∃ rs, c.discover = Except.ok rs) →
        ∃ snapshots, run_collection collectors = Except.ok snapshots) := by
  refine ⟨?_, gatherResults_all_fail, ?_, ?_⟩
  · intro tasks order hperm
    refine ⟨gatherResults_perm hperm, fun s => ?_⟩
    rw [mem_gatherResults order s]
    exact hperm.mem_iff
  · intro s₁ s₂ s₄ s₅ e order hperm
    have h := gatherResults_perm hperm
    simpa [gatherResults] using h
  · intro cs hcs
    obtain ⟨ts, hts⟩ := submitTasks_ok cs hcs
    refine ⟨gatherResults ts, ?_⟩
    simp only [run_collection, hts]
    rfl

/-- Witness for C1: two failing tasks gather to the empty list; of five
tasks with the third raising, exactly the other four snapshots remain. -/
theorem orchestrator_fault_isolation_witness :
    gatherResults [Except.error "boom", Except.error "crash"] =
      ([] : List ℕ) ∧
    (gatherResults [Except.ok 1, Except.ok 2, Except.error "x",
      Except.ok 4, Except.ok 5]).Perm [1, 2, 4, 5] := by
  constructor
  · refine (orchestrator_fault_isolation String Unit ℕ).2.1 _ ?_
    intro t ht
    simp only [List.mem_cons, List.not_mem_nil, or_false] at ht
    rcases ht with rfl | rfl
    · exact ⟨"boom", rfl⟩
    · exact ⟨"crash", rfl⟩
  · exact (orchestrator_fault_isolation String Unit ℕ).2.2.1 1 2 4 5 "x" _
      (List.Perm.refl _)

/-- C2 counterexample: a category whose `discover()` raises aborts the
whole collection run — `run_collection` propagates the error and returns
no snapshot list, so the following healthy category contributes nothing
either, contradicting the claim that a discovery failure only costs that
category its own snapshots. -/
theorem discovery_failure_not_isolated :
    run_collection [badCollector, goodCollector] =
      Except.error "discovery boom" ∧
    (run_collection [badCollector, goodCollector]).isOk = false := by
  exact ⟨rfl, rfl⟩

/-- C2 (amended): discovery failures are not isolated: if every category
before some category discovers successfully and the `discover()` of
that category raises, `run_collection` raises that same error and no
snapshot list at all is produced — only collection-task failures are
isolated. -/
theorem discovery_failure_aborts (ε ρ σ : Type)
    (pre post : List (Collector ε ρ σ)) (c : Collector ε ρ σ) (e : ε)
    (hpre : ∀ c' ∈ pre, ∃ rs, c'.discover = Except.ok rs)
    (hc : c.discover = Except.error e) :
    run_collection (pre ++ c :: post) = Except.error e ∧
    ∀ snapshots, run_collection (pre ++ c :: post) ≠ Except.ok snapshots := by
  have habort : run_collection (pre ++ c :: post) = Except.error e := by
    simp only [run_collection, submitTasks_abort pre post c e hpre hc]
    rfl
  exact ⟨habort, fun snaps h => by rw [habort] at h; cases h⟩

/-- Witness for C2 (amended): a healthy category followed by a
discovery-failing one still aborts the whole run. -/
theorem discovery_failure_aborts_witness :
    (∀ c' ∈ [goodCollector], ∃ rs, c'.discover = Except.ok rs) ∧
    badCollector.discover = Except.error "discovery boom" ∧
    run_collection [goodCollector, badCollector] =
      Except.error "discovery boom" := by
  have hpre : ∀ c' ∈ [goodCollector], ∃ rs, c'.discover = Except.ok rs := by
    intro c' hc'
    simp only [List.mem_singleton] at hc'
    subst hc'
    exact ⟨["r1"], rfl⟩
  exact ⟨hpre, rfl,
    (discovery_failure_aborts String String String [goodCollector] []
      badCollector "discovery boom" hpre rfl).1⟩

/-- C8: the aggregation step is the pure concatenation of static findings
followed by temporal findings, preserving the internal order of each list with
no deduplication, and when the concatenation is empty the fixed no-issues
message is returned without invoking any summarizer. -/
theorem aggregate_pure_concat :
    (∀ static_findings temporal_findings : List Finding,
      aggregate static_findings temporal_findings =
        static_findings ++ temporal_findings)
    ∧ (∀ A B C : Finding, aggregate [A, B] [C] = [A, B, C])
    ∧ (∀ (sf tf : List Finding) (sum1 sum2 : List Finding → String),
        aggregate sf tf = [] →
        run_analysis true sum1 sf tf = noIssuesMessage ∧
        run_analysis true sum1 sf tf = run_analysis true sum2 sf tf) := by
  refine ⟨fun _ _ => rfl, fun A B C => rfl, ?_⟩
  intro sf tf sum1 sum2 hempty
  have hempty' : (aggregate sf tf).isEmpty = true := by
    rw [hempty]
    rfl
  constructor <;> simp [run_analysis, hempty']

/-- Witness for C8: with no findings at all, two different summarizers
are never consulted and the fixed message comes back. -/
theorem aggregate_pure_concat_witness :
    aggregate [] [] = ([] : List Finding) ∧
    run_analysis true (fun _ => "summary-a") [] [] = noIssuesMessage ∧
    run_analysis true (fun _ => "summary-a") [] [] =
      run_analysis true (fun _ => "summary-b") [] [] := by
  have h := aggregate_pure_concat.2.2 [] [] (fun _ => "summary-a")
    (fun _ => "summary-b") rfl
  exact ⟨rfl, h.1, h.2⟩

theorem run_pre_analysis_exAlbBothItem :
    run_pre_analysis [exAlbBothItem] = [exStaticFinding] := by
  have h5 : Item.getNum exAlbBothItem "http_5xx_errors" 0 = 50 := by
    simp [exAlbBothItem, Item.getNum, List.lookup]
  have h := analyze_alb_hit5xx exAlbBothItem (by rw [h5]; norm_num)
  rw [h5] at h
  have hshort : albShortName exAlbBothItem.resource = "my-lb" := by decide
  rw [hshort] at h
  rw [run_pre_analysis_singleton]
  have hpre : preAnalyzeItem exAlbBothItem = analyze_alb exAlbBothItem := rfl
  rw [hpre, h]
  rfl

theorem temporalAnalyzeAlb_exItem :
    temporalAnalyzeAlb exAlbTemporalItem "72.0 hours" exSettings =
      [exTemporalFinding] := by
  have hg1 : exAlbTemporalItem.getNum "http_5xx_errors" 0 = 75 := by
    simp [exAlbTemporalItem, Item.getNum, List.lookup]
  have hg2 : exAlbTemporalItem.getHist "http_5xx_errors_history" =
      [50, 50, 50] := by
    simp [exAlbTemporalItem, Item.getHist, List.lookup]
  have hmean : sampleMean ([50, 50, 50] : List ℚ) = 50 := by
    norm_num [sampleMean]
  have htrend := trend_zero_var_step "ALB 5xx Errors" 75 [50, 50, 50]
    "72.0 hours" 3 2 true (by norm_num)
    (by norm_num [sampleVariance, sampleMean]) (by rw [hmean]; norm_num)
  rw [hmean] at htrend
  have hq : qualityNotice ([50, 50, 50] : List ℚ).length 3 = "" := by decide
  rw [hq] at htrend
  simp only [temporalAnalyzeAlb, hg1, hg2, exSettings]
  rw [htrend]
  rfl

/-- C10 counterexample: the concrete temporal finding emitted for
`exAlbTemporalItem` is built without any `namespace`, observed `value` or
`threshold`/baseline entry — its dict has only the seven temporal keys —
so not every emitted finding carries all the Finding attributes the claim
lists. -/
theorem finding_attributes_counterexample :
    temporalAnalyzeAlb exAlbTemporalItem "72.0 hours" exSettings =
      [exTemporalFinding] ∧
    Finding.keys (.temporal exTemporalFinding) = temporalKeys ∧
    "value" ∉ temporalKeys ∧ "threshold" ∉ temporalKeys ∧
    "namespace" ∉ temporalKeys :=
  ⟨temporalAnalyzeAlb_exItem, rfl, by decide, by decide, by decide⟩

/-- C10 (amended): every static finding carries exactly the ten static
keys (finding_type, service, resource_id, issue, metric, value,
threshold, strength, confidence, explanation — no data_quality_notice and
no namespace entry), every temporal finding carries exactly the seven
temporal keys (finding_type, resource_id, metric, strength, confidence,
explanation, data_quality_notice — no namespace, observed-value or
threshold/baseline entry), and the confidence of every emitted finding lies in
[0, 1]. -/
theorem finding_attributes (items : List Item) (it : Item) (tds : String)
    (s : Settings) (f : StaticFinding) (g : TemporalFinding) :
    (f ∈ run_pre_analysis items →
      Finding.keys (.static f) = staticKeys ∧
      0 ≤ Finding.confidence (.static f) ∧
      Finding.confidence (.static f) ≤ 1)
    ∧ ((g ∈ temporalAnalyzeAlb it tds s ∨ g ∈ temporalAnalyzeRds it tds s ∨
          g ∈ temporalAnalyzeElasticache it tds s) →
        Finding.keys (.temporal g) = temporalKeys ∧
        0 ≤ Finding.confidence (.temporal g) ∧
        Finding.confidence (.temporal g) ≤ 1)
    ∧ "data_quality_notice" ∉ staticKeys ∧ "namespace" ∉ staticKeys ∧
      "value" ∉ temporalKeys ∧ "threshold" ∉ temporalKeys := by
  refine ⟨?_, ?_, by decide, by decide, by decide, by decide⟩
  · intro hf
    simp only [run_pre_analysis] at hf
    obtain ⟨it', _, hsome⟩ := List.mem_filterMap.mp hf
    have hb := preAnalyzeItem_conf it' f hsome
    refine ⟨rfl, ?_, ?_⟩
    · simp only [Finding.confidence]
      exact_mod_cast hb.1
    · simp only [Finding.confidence]
      exact_mod_cast hb.2
  · intro hg
    have hb : 0 ≤ g.confidence ∧ g.confidence ≤ 1 := by
      rcases hg with hg | hg | hg
      · obtain ⟨r, hr, hcr, -⟩ := temporalAnalyzeAlb_mem it tds s g hg
        obtain ⟨-, -, hc0, hc1⟩ := trend_some_fields _ _ _ _ _ _ _ r hr
        rw [hcr]
        exact ⟨hc0, hc1⟩
      · obtain ⟨r, hr, hcr, -⟩ := temporalAnalyzeRds_mem it tds s g hg
        obtain ⟨-, -, hc0, hc1⟩ := trend_some_fields _ _ _ _ _ _ _ r hr
        rw [hcr]
        exact ⟨hc0, hc1⟩
      · obtain ⟨r, hr, hcr, -⟩ := temporalAnalyzeElasticache_mem it tds s g hg
        obtain ⟨-, -, hc0, hc1⟩ := trend_some_fields _ _ _ _ _ _ _ r hr
        rw [hcr]
        exact ⟨hc0, hc1⟩
    exact ⟨rfl, hb.1, hb.2⟩

/-- Witness for C10 (amended): the concrete static and temporal findings
above are emitted and their confidences lie in [0, 1]. -/
theorem finding_attributes_witness :
    exStaticFinding ∈ run_pre_analysis [exAlbBothItem] ∧
    0 ≤ Finding.confidence (.static exStaticFinding) ∧
    Finding.confidence (.static exStaticFinding) ≤ 1 ∧
    exTemporalFinding ∈
      temporalAnalyzeAlb exAlbTemporalItem "72.0 hours" exSettings ∧
    0 ≤ Finding.confidence (.temporal exTemporalFinding) ∧
    Finding.confidence (.temporal exTemporalFinding) ≤ 1 := by
  have hmem1 : exStaticFinding ∈ run_pre_analysis [exAlbBothItem] := by
    rw [run_pre_analysis_exAlbBothItem]
    exact List.mem_singleton.mpr rfl
  have hmem2 : exTemporalFinding ∈
      temporalAnalyzeAlb exAlbTemporalItem "72.0 hours" exSettings := by
    rw [temporalAnalyzeAlb_exItem]
    exact List.mem_singleton.mpr rfl
  have H1 := (finding_attributes [exAlbBothItem] exAlbTemporalItem
    "72.0 hours" exSettings exStaticFinding exTemporalFinding).1 hmem1
  have H2 := (finding_attributes [exAlbBothItem] exAlbTemporalItem
    "72.0 hours" exSettings exStaticFinding exTemporalFinding).2.1
    (Or.inl hmem2)
  exact ⟨hmem1, H1.2.1, H1.2.2, hmem2, H2.2.1, H2.2.2⟩

end AwsAgent
